import Mathlib

/-!
Shallow embedding of the composite rigid-body assembly layer of
`src/components/game_components.py` (classes Ball, Catapult, Crate, Lever,
Projectile, Seesaw, Trigger), together with the fragment of the pymunk
Physics Capability that the Trigger lifecycle exercises (space
registration/deregistration and begin-of-contact handlers).

Numeric conventions: world coordinates, masses and sizes are embedded as
rationals (the Python source computes with floats, but every constant the
claims touch is exact in ℚ); angles and the degree/radian conversions of
`math.degrees` / `math.radians` are embedded in ℝ since they involve π.
Python exceptions are embedded with `Except String`: a raising call is an
`Except.error`, and sequencing in the `Except` monad mirrors the fact that
a raised exception aborts the rest of the Python function body.
-/

namespace PygameWrapper

/-- A 2D vector / position in world units (pymunk `Vec2d`). -/
structure Vec2 where
  x : ℚ
  y : ℚ
deriving DecidableEq, Repr

/-- Constant `CRATE_SIZE_MULTIPLIER = 10` (game_components.py line 20). -/
def CRATE_SIZE_MULTIPLIER : ℚ := 10

/-- Constant `LEVER_LEFT_RATIO = 0.4` (line 28; renamed: underscore name kept otherwise). -/
def LEVER_LEFT_FRACTION : ℚ := 0.4

/-- Constant `LEVER_RIGHT_RATIO = 0.6` (line 29). -/
def LEVER_RIGHT_FRACTION : ℚ := 0.6

/-- Constant `LEVER_COLLISION_TYPE = 2` (line 30). -/
def LEVER_COLLISION_TYPE : ℕ := 2

/-- A pre-rendered pygame Surface; only its pixel dimensions are relevant to
the claims (it is generated once at construction and reused, so equality of
`Texture` values models reuse of the same surface object). -/
structure Texture where
  w : ℚ
  h : ℚ
deriving DecidableEq, Repr

/-- A pymunk `Circle` shape. pymunk defaults: density 0, elasticity 0,
friction 0, collision_type 0, unless the constructor assigns them. -/
structure Circle where
  radius : ℚ
  density : ℚ
  elasticity : ℚ
  friction : ℚ
  collision_type : ℕ
deriving DecidableEq, Repr

/-- A pymunk `Segment` shape: endpoints `a`, `b` in body-local coordinates
and a thickness radius. -/
structure Segment where
  a : Vec2
  b : Vec2
  radius : ℚ
  friction : ℚ
  elasticity : ℚ
  collision_type : ℕ
deriving DecidableEq, Repr

/-- A pymunk box `Poly` created by `Poly.create_box(body, (w, h))`: `w`, `h`
are the FULL side lengths of the box (pymunk centers the box on the body). -/
structure BoxShape where
  w : ℚ
  h : ℚ
  elasticity : ℚ
  friction : ℚ
  sensor : Bool
  collision_type : ℕ
deriving DecidableEq, Repr

/-- Half of the box's full width: the half-extent of the box along x. -/
def BoxShape.halfExtentX (s : BoxShape) : ℚ := s.w / 2

/-- A pymunk `PivotJoint(body, space.static_body, anchor)` — a rotation-only
anchor at the world point `anchor`, connecting the body to the static frame. -/
structure PivotJointR where
  anchor : Vec2
  toStatic : Bool
deriving DecidableEq, Repr

/-- A pymunk `PinJoint(space.static_body, body, anchorA, anchorB)`:
`anchorA` is the world anchor on the static body, `anchorB` the local anchor
on the dynamic body. -/
structure PinJointR where
  anchorA : Vec2
  anchorB : Vec2
  toStatic : Bool
deriving DecidableEq, Repr

/-- Conversion `math.radians d = d * π / 180`. -/
noncomputable def radians (d : ℝ) : ℝ := d * Real.pi / 180

/-- Conversion `math.degrees θ = θ * 180 / π`. -/
noncomputable def degrees (θ : ℝ) : ℝ := θ * 180 / Real.pi

/-- A pymunk `RotaryLimitJoint(space.static_body, body, min, max)` bounding
the relative rotation of the body against the static frame. -/
structure RotaryLimitJointR where
  minAngle : ℝ
  maxAngle : ℝ
  toStatic : Bool

/-- The contract of an enforced rotary-limit joint: the engine keeps the
body's relative angle inside `[minAngle, maxAngle]` (spec section 6 assumes
the Physics Capability enforces the joints it is given). -/
def RotaryLimitJointR.enforces (j : RotaryLimitJointR) (θ : ℝ) : Prop :=
  j.minAngle ≤ θ ∧ θ ≤ j.maxAngle

/-- The mutable pose of a pymunk body, read at draw time. -/
structure BodyState where
  position : Vec2
  angle : ℝ

/-- Python `int()` applied to a rational: truncation toward zero. -/
def pyInt (q : ℚ) : ℤ := if q < 0 then -Int.floor (-q) else Int.floor q

/-- The blit emitted by `Ball.draw` / `Projectile.draw`:
`pygame.transform.rotate(image, rotationDeg)` then a blit with the rotated
image's rect centered at `center`. -/
structure BlitCmd where
  image : Texture
  rotationDeg : ℝ
  center : ℤ × ℤ

/-- Source `Ball.__init__` (lines 54-79): mass 10, circle shape with
elasticity 1.0, friction 0.5, collision_type 1; pre-rendered
`pygame.Surface((radius*2, radius*2))` texture. -/
structure Ball where
  position : Vec2
  radius : ℚ
  mass : ℚ
  shape : Circle
  image : Texture
deriving DecidableEq, Repr

def Ball.init (x y radius : ℚ) : Ball :=
  ⟨⟨x, y⟩,                 -- body.position = (x, y)
   radius,
   10,                     -- mass = 10
   ⟨radius, 0, 1, 1/2, 1⟩, -- Circle: elasticity 1.0, friction 0.5, collision_type 1
   ⟨radius * 2, radius * 2⟩⟩ -- Surface((radius*2, radius*2)), rendered once

/-- Source `Ball.draw` (lines 81-96): rotate the pre-rendered image by
`-math.degrees(body.angle)` and blit it centered at
`(int(body.position.x), int(body.position.y))`. -/
noncomputable def Ball.draw (b : Ball) (st : BodyState) : BlitCmd :=
  ⟨b.image, -(degrees st.angle), (pyInt st.position.x, pyInt st.position.y)⟩

/-- Source `Projectile.__init__` (lines 501-549): mass 100, circle shape with
density 1, elasticity 0.4, friction 0.8 (collision_type left at default 0),
`on_ground = False`, pre-rendered rock texture of size `(radius*2, radius*2)`. -/
structure Projectile where
  position : Vec2
  radius : ℚ
  mass : ℚ
  on_ground : Bool
  shape : Circle
  image : Texture
deriving DecidableEq, Repr

def Projectile.init (position : Vec2) (radius : ℚ) : Projectile :=
  ⟨position,
   radius,
   100,                       -- self.mass = 100
   false,                     -- self.on_ground = False
   ⟨radius, 1, 2/5, 4/5, 0⟩,  -- density 1, elasticity 0.4, friction 0.8
   ⟨radius * 2, radius * 2⟩⟩  -- Surface((radius*2, radius*2)), rendered once

/-- Source `Projectile.draw` (lines 551-566): identical to `Ball.draw`. -/
noncomputable def Projectile.draw (p : Projectile) (st : BodyState) : BlitCmd :=
  ⟨p.image, -(degrees st.angle), (pyInt st.position.x, pyInt st.position.y)⟩

/-- Source `Crate.__init__` (lines 214-225): `size = mass * CRATE_SIZE_MULTIPLIER`;
box shape built by `Poly.create_box(body, (size * 2, size * 2))` — full side
lengths `size * 2` — with elasticity 0.6 and friction 0.8. -/
structure Crate where
  mass : ℚ
  size : ℚ
  position : Vec2
  shape : BoxShape
deriving DecidableEq, Repr

def Crate.init (position : Vec2) (mass : ℚ) : Crate :=
  let size := mass * CRATE_SIZE_MULTIPLIER
  ⟨mass, size, position,
   ⟨size * 2, size * 2, 3/5, 4/5, false, 0⟩⟩ -- elasticity 0.6, friction 0.8

/-- In-place mutation `crate.body.position = p` of an already-constructed
crate (the rest of the crate, in particular its shape, is untouched). -/
def Crate.setPosition (c : Crate) (p : Vec2) : Crate :=
  ⟨c.mass, c.size, p, c.shape⟩

/-- Source `Lever.__init__` (lines 297-400): one dynamic body at `pivot_point`, a
main beam segment plus four holder segments, and a pivot joint to the
static frame at `pivot_point`.  Holder endpoints are computed once here, at
construction, from the CURRENT positions of `load` and `effort`, and stored
in the created pymunk `Segment` shapes. -/
structure Lever where
  length : ℚ
  thickness : ℚ
  mass : ℚ
  pivot_point : Vec2
  position : Vec2
  shape : Segment
  holder1 : Segment
  holder2 : Segment
  holder3 : Segment
  holder4 : Segment
  joint : PivotJointR
deriving DecidableEq, Repr

def Lever.init (pivot_point : Vec2) (length thickness : ℚ)
    (load effort : Crate) (mass : ℚ) : Lever :=
  let left_length := length * LEVER_LEFT_FRACTION
  let right_length := length * LEVER_RIGHT_FRACTION
  -- load_x = load.body.position.x ; lever_x = body.position.x = pivot_point.x
  let load_local_x := load.position.x - pivot_point.x
  let effort_local_x := effort.position.x - pivot_point.x
  let load_half_width := load.size     -- load_half_width = self.load.size
  let effort_half_width := effort.size -- effort_half_width = self.effort.size
  ⟨length, thickness, mass, pivot_point, pivot_point,
   -- main beam: Segment((-left_length,0),(right_length,0), thickness),
   -- friction 0.8, collision_type = LEVER_COLLISION_TYPE
   ⟨⟨-left_length, 0⟩, ⟨right_length, 0⟩, thickness, 4/5, 0, LEVER_COLLISION_TYPE⟩,
   -- holder 1: fixed offset from the left tip
   ⟨⟨-length * LEVER_LEFT_FRACTION + -5, 5⟩, ⟨-length * LEVER_LEFT_FRACTION + -5, -20⟩,
    thickness, 1/2, 1/5, 0⟩,
   -- holder 2: bracket just right of the load
   ⟨⟨load_local_x + load_half_width + 5, 5⟩, ⟨load_local_x + load_half_width + 5, -20⟩,
    thickness, 1/2, 1/5, 0⟩,
   -- holder 3: bracket just left of the effort
   ⟨⟨effort_local_x - effort_half_width - 5, 5⟩, ⟨effort_local_x - effort_half_width - 5, -20⟩,
    thickness, 1/2, 1/5, 0⟩,
   -- holder 4: literal fixed offset, thinner, lever collision type
   ⟨⟨-length * LEVER_LEFT_FRACTION + 355, 5⟩, ⟨-length * LEVER_LEFT_FRACTION + 355, -20⟩,
    thickness - 5, 1/2, 1/5, LEVER_COLLISION_TYPE⟩,
   ⟨pivot_point, true⟩⟩

/-- A small world holding the load crate, the effort crate and a lever built
from them, used to express post-construction mutation of the crates.
A pymunk `Segment`'s endpoints are fixed when the shape is created, so
mutating the load's body afterwards leaves the lever's stored shapes
untouched — which is exactly what the record-update model expresses. -/
structure LeverWorld where
  load : Crate
  effort : Crate
  lever : Lever
deriving DecidableEq, Repr

/-- The scenario of spec section 8 item 6: load crate at (100,100) mass 2,
effort crate at (300,100) mass 1, lever at pivot (200,100),
length 300, thickness 10. -/
def leverDemoWorld : LeverWorld :=
  let load := Crate.init ⟨100, 100⟩ 2
  let effort := Crate.init ⟨300, 100⟩ 1
  ⟨load, effort, Lever.init ⟨200, 100⟩ 300 10 load effort 10⟩

/-- Post-construction move of the load: the load's body position is mutated
in place; no lever shape is recomputed. -/
def LeverWorld.moveLoad (w : LeverWorld) (p : Vec2) : LeverWorld :=
  ⟨w.load.setPosition p, w.effort, w.lever⟩

/-- Source `Catapult.__init__` / `Catapult.create_arm` (lines 112-161): one dynamic
body at `pivot` with `angular_velocity = 46` set at creation, an arm segment
and two stopper segments on that body, and a pivot joint to the static frame
anchored at `pivot`. -/
structure Catapult where
  pivot : Vec2
  stick_length : ℚ
  stick_thickness : ℚ
  mass : ℚ
  arm_body_position : Vec2
  arm_body_angular_velocity : ℚ
  arm_shape : Segment
  stopper_shape : Segment
  stopper_shape2 : Segment
  joint : PivotJointR
deriving DecidableEq, Repr

def Catapult.init (pivot : Vec2) (stick_length stick_thickness : ℚ) : Catapult :=
  ⟨pivot, stick_length, stick_thickness,
   500,     -- self.mass = 500
   pivot,   -- arm_body.position = pivot
   46,      -- arm_body.angular_velocity = 46, set before space.add
   -- arm: Segment((0,0), (-stick_length,0), stick_thickness), friction 0.8
   ⟨⟨0, 0⟩, ⟨-stick_length, 0⟩, stick_thickness, 4/5, 0, 0⟩,
   -- stopper at the tip: friction 0.5, elasticity 0.2
   ⟨⟨-stick_length, 0⟩, ⟨-stick_length - 15, -25⟩, stick_thickness, 1/2, 1/5, 0⟩,
   -- stopper before the tip: friction 0.5, elasticity 0.2
   ⟨⟨-stick_length + 20, 0⟩, ⟨-stick_length + 35, -25⟩, stick_thickness, 1/2, 1/5, 0⟩,
   ⟨pivot, true⟩⟩ -- PivotJoint(arm_body, space.static_body, pivot)

/-- Source `Seesaw.__init__` (lines 582-599): dynamic body and box shape at (x,y),
`PinJoint(space.static_body, body, (x, y), (0, 0))` and
`RotaryLimitJoint(space.static_body, body, radians(-35), radians(35))`. -/
structure Seesaw where
  position : Vec2
  width : ℚ
  height : ℚ
  shape : BoxShape
  pin : PinJointR
  limit : RotaryLimitJointR

noncomputable def Seesaw.init (x y width height : ℚ) : Seesaw :=
  ⟨⟨x, y⟩, width, height,
   ⟨width, height, 2/5, 4/5, false, 0⟩, -- box, elasticity 0.4, friction 0.8
   ⟨⟨x, y⟩, ⟨0, 0⟩, true⟩,              -- PinJoint(static, body, (x,y), (0,0))
   ⟨radians (-35), radians 35, true⟩⟩   -- RotaryLimitJoint(static, body, ...)

/-- Outcome of a Python callback: it either returns normally or raises. -/
inductive CbResult where
  | ok : CbResult
  | raise : String → CbResult
deriving DecidableEq, Repr

/-- The fragment of a pymunk `Space` the Trigger lifecycle touches: the
registered body and shape handle sets and the registered begin-of-contact
handler pairs. -/
structure Space where
  bodies : List ℕ
  shapes : List ℕ
  handlers : List (ℕ × ℕ)
deriving DecidableEq, Repr

/-- pymunk `Space._remove_body`: `assert body in self._bodies, "body not in
space"` — removing an absent body raises; otherwise the body is removed. -/
def Space.removeBody (s : Space) (b : ℕ) : Except String Space :=
  if b ∈ s.bodies then Except.ok ⟨s.bodies.erase b, s.shapes, s.handlers⟩
  else Except.error "body not in space"

/-- pymunk `Space._remove_shape`: asserts the shape is registered. -/
def Space.removeShape (s : Space) (sh : ℕ) : Except String Space :=
  if sh ∈ s.shapes then Except.ok ⟨s.bodies, s.shapes.erase sh, s.handlers⟩
  else Except.error "shape not in space"

/-- Source `Trigger.__init__` (lines 652-671): stores the arguments, places a
static body at `(position[0] + width/2, position[1] + height/2)`, gives it a
sensor box shape of full size `(width, height)` with collision_type 99, adds
body and shape to the space and registers the begin-of-contact handler for
the collision-type pair (1, 99).  `on_trigger` is the (opaque) user
callback, embedded by the outcome it would produce at the contact. -/
structure Trigger where
  bodyId : ℕ
  shapeId : ℕ
  position : Vec2
  width : ℚ
  height : ℚ
  on_trigger : Option CbResult
  bodyPosition : Vec2
  shape : BoxShape
deriving DecidableEq, Repr

def Trigger.init (s : Space) (bodyId shapeId : ℕ) (position : Vec2)
    (width height : ℚ) (on_trigger : Option CbResult) : Trigger × Space :=
  let center_x := position.x + width / 2
  let center_y := position.y + height / 2
  (⟨bodyId, shapeId, position, width, height, on_trigger,
    ⟨center_x, center_y⟩,
    ⟨width, height, 0, 0, true, 99⟩⟩, -- sensor = True, collision_type = 99
   ⟨s.bodies ++ [bodyId], s.shapes ++ [shapeId], s.handlers ++ [(1, 99)]⟩)

/-- Source `Trigger.remove` (lines 679-681): `self.space.remove(self.body,
self.shape)` with pymunk's semantics — body first, then shape, each
asserting presence. -/
def Trigger.remove (t : Trigger) (s : Space) : Except String Space := do
  let s1 ← s.removeBody t.bodyId
  s1.removeShape t.shapeId

/-- What `Trigger._handle_collision` hands back when it returns normally:
the space after the removal, whether the user callback ran, and the
handler's return value (`False` tells pymunk to suppress the physical
contact response). -/
structure HandleOutcome where
  space : Space
  callbackRan : Bool
  retVal : Bool
deriving DecidableEq, Repr

/-- Source `Trigger._handle_collision` (lines 673-677):

    if self.on_trigger: self.on_trigger(arbiter, space, data)
    self.remove()
    return False

An exception raised by `self.on_trigger` propagates out of the handler
(there is no try/finally), aborting the remaining statements. -/
def Trigger.handleCollision (t : Trigger) (s : Space) :
    Except String HandleOutcome := do
  let ran ← match t.on_trigger with
    | some CbResult.ok => Except.ok true
    | some (CbResult.raise e) => Except.error e
    | none => Except.ok false
  let s2 ← t.remove s
  Except.ok ⟨s2, ran, false⟩

/-! Concrete triggers and spaces used by the Trigger claims. -/

/-- A trigger whose user callback raises, constructed in an empty space
(body handle 0, shape handle 1). -/
def trigger_raising : Trigger × Space :=
  Trigger.init ⟨[], [], []⟩ 0 1 ⟨50, 80⟩ 40 20 (some (CbResult.raise "boom"))

/-- A trigger whose user callback returns normally, constructed in an empty
space (body handle 0, shape handle 1). -/
def trigger_normal : Trigger × Space :=
  Trigger.init ⟨[], [], []⟩ 0 1 ⟨50, 80⟩ 40 20 (some CbResult.ok)

/-- The space after the trigger's body and shape have already been removed
(only the contact-handler registration remains). -/
def removed_space : Space := ⟨[], [], [(1, 99)]⟩

/-- The mass-1 crate of the C4 counterexample. -/
def crate_unit : Crate := Crate.init ⟨0, 0⟩ 1

/-- Sequencing a successful pymunk operation continues with its result. -/
theorem exceptOkBind {α β : Type} (a : α) (f : α → Except String β) :
    (Except.ok a >>= f) = f a := rfl

/-- Sequencing after a raised exception propagates the exception. -/
theorem exceptErrorBind {α β : Type} (e : String) (f : α → Except String β) :
    ((Except.error e : Except String α) >>= f) = Except.error e := rfl

/-- Claim C1 (amended): when the begin-of-contact handler fires for a
registered trigger and the user callback (if any) returns normally, the
handler invokes the callback, removes the trigger's body and shape from the
space, and returns `False` to suppress the physical contact response.  A
raising callback, however, aborts the handler before the removal (see the
counterexample). -/
theorem C1_trigger_contact (t : Trigger) (s : Space)
    (hb : t.bodyId ∈ s.bodies) (hs : t.shapeId ∈ s.shapes)
    (hcb : t.on_trigger = none ∨ t.on_trigger = some CbResult.ok) :
    t.handleCollision s
      = Except.ok ⟨⟨s.bodies.erase t.bodyId, s.shapes.erase t.shapeId, s.handlers⟩,
                   t.on_trigger.isSome, false⟩ := by
  have hrm : t.remove s
      = Except.ok ⟨s.bodies.erase t.bodyId, s.shapes.erase t.shapeId, s.handlers⟩ := by
    unfold Trigger.remove Space.removeBody Space.removeShape
    rw [if_pos hb]
    simp only [exceptOkBind]
    rw [if_pos hs]
  rcases hcb with h | h <;>
    simp only [Trigger.handleCollision, h, exceptOkBind, hrm,
      Option.isSome_some, Option.isSome_none]

/-- Witness for C1: the handler on `trigger_normal` removes handles 0 and 1
and returns `False`, with the callback having run. -/
theorem C1_trigger_contact_witness :
    trigger_normal.1.handleCollision trigger_normal.2
      = Except.ok ⟨⟨[], [], [(1, 99)]⟩, true, false⟩ := by
  have h := C1_trigger_contact trigger_normal.1 trigger_normal.2
    (by decide) (by decide) (by decide)
  exact h

/-- Counterexample to C1 as stated: for the registered trigger whose
callback raises, the handler propagates the exception; it neither removes
the body and shape (which are still registered at the point of the raise)
nor returns `False`. -/
theorem C1_counterexample :
    trigger_raising.1.handleCollision trigger_raising.2 = Except.error "boom"
      ∧ trigger_raising.1.bodyId ∈ trigger_raising.2.bodies
      ∧ trigger_raising.1.shapeId ∈ trigger_raising.2.shapes :=
  ⟨rfl, by decide, by decide⟩

/-- Claim C2 (amended): `remove()` on a trigger whose body is no longer
registered is NOT a no-op — pymunk's `Space.remove` asserts presence, so
the call raises "body not in space"; `remove()` is not idempotent-safe. -/
theorem C2_remove_after_removed (t : Trigger) (s : Space)
    (h : t.bodyId ∉ s.bodies) :
    t.remove s = Except.error "body not in space" := by
  unfold Trigger.remove Space.removeBody
  rw [if_neg h]
  rfl

/-- Witness for C2: removing `trigger_normal` from the space in which its
body and shape are already gone raises. -/
theorem C2_remove_after_removed_witness :
    trigger_normal.1.remove removed_space = Except.error "body not in space" :=
  C2_remove_after_removed trigger_normal.1 removed_space (by decide)

/-- Counterexample to C2 as stated: removing the same trigger twice in a
row faults on the second call instead of being a no-op. -/
theorem C2_counterexample :
    (trigger_normal.1.remove trigger_normal.2).bind trigger_normal.1.remove
      = Except.error "body not in space" := rfl

/-- Claim C3: holder 2's local x-offset is `(load.x - lever.x) + load.size + 5`
and holder 3's is `(effort.x - lever.x) - effort.size - 5`, snapshotted from
the load/effort positions at Lever construction; moving the load afterwards
leaves the holder geometry unchanged, and in the concrete scenario
(load at x=100 size 20, effort at x=300 size 10, pivot x=200) the offsets
are -75 and 85. -/
theorem C3_lever_holder_snapshot :
    (∀ (piv : Vec2) (length thickness : ℚ) (load effort : Crate) (mass : ℚ),
      (Lever.init piv length thickness load effort mass).holder2.a.x
          = (load.position.x - piv.x) + load.size + 5
        ∧ (Lever.init piv length thickness load effort mass).holder2.b.x
          = (load.position.x - piv.x) + load.size + 5
        ∧ (Lever.init piv length thickness load effort mass).holder3.a.x
          = (effort.position.x - piv.x) - effort.size - 5
        ∧ (Lever.init piv length thickness load effort mass).holder3.b.x
          = (effort.position.x - piv.x) - effort.size - 5)
    ∧ (∀ p : Vec2,
        (leverDemoWorld.moveLoad p).lever.holder2.a.x = -75
          ∧ (leverDemoWorld.moveLoad p).lever.holder3.a.x = 85) := by
  constructor
  · intro piv length thickness load effort mass
    exact ⟨rfl, rfl, rfl, rfl⟩
  · intro p
    constructor
    · show leverDemoWorld.lever.holder2.a.x = -75
      norm_num [leverDemoWorld, Lever.init, Crate.init, CRATE_SIZE_MULTIPLIER]
    · show leverDemoWorld.lever.holder3.a.x = 85
      norm_num [leverDemoWorld, Lever.init, Crate.init, CRATE_SIZE_MULTIPLIER]

/-- Claim C4 (amended): for every Crate of mass `m`, `size = 10 * m`, and
the physics box is built with FULL side lengths `2 * size`, so the box
half-extent equals `size` (not `2 * size` as the claim states). -/
theorem C4_crate_size (position : Vec2) (mass : ℚ) :
    (Crate.init position mass).size = 10 * mass
      ∧ (Crate.init position mass).shape.w = 2 * (Crate.init position mass).size
      ∧ (Crate.init position mass).shape.h = 2 * (Crate.init position mass).size
      ∧ (Crate.init position mass).shape.halfExtentX = (Crate.init position mass).size := by
  simp only [Crate.init, BoxShape.halfExtentX, CRATE_SIZE_MULTIPLIER]
  refine ⟨by ring, by ring, by ring, by ring⟩

/-- Counterexample to C4 as stated: the mass-1 crate has size 10 and box
half-extent 10, whereas `2 * size = 20`. -/
theorem C4_counterexample :
    crate_unit.shape.halfExtentX = 10
      ∧ 2 * crate_unit.size = 20
      ∧ crate_unit.shape.halfExtentX ≠ 2 * crate_unit.size := by
  refine ⟨?_, ?_, ?_⟩ <;>
    norm_num [crate_unit, Crate.init, BoxShape.halfExtentX, CRATE_SIZE_MULTIPLIER]

/-- Claim C5: Seesaw construction attaches a pin joint locking the world
point (x, y) to the body origin and a rotary-limit joint to the static
frame with bounds `radians (-35)` and `radians 35`; any angle the engine
keeps within the limit joint's bounds satisfies `|θ| ≤ radians 35`. -/
theorem C5_seesaw (x y width height : ℚ) :
    (Seesaw.init x y width height).pin.anchorA = ⟨x, y⟩
      ∧ (Seesaw.init x y width height).pin.anchorB = ⟨0, 0⟩
      ∧ (Seesaw.init x y width height).pin.toStatic = true
      ∧ (Seesaw.init x y width height).limit.toStatic = true
      ∧ (Seesaw.init x y width height).limit.minAngle = radians (-35)
      ∧ (Seesaw.init x y width height).limit.maxAngle = radians 35
      ∧ ∀ θ : ℝ, (Seesaw.init x y width height).limit.enforces θ
          → |θ| ≤ radians 35 := by
  refine ⟨rfl, rfl, rfl, rfl, rfl, rfl, ?_⟩
  intro θ hθ
  obtain ⟨h1, h2⟩ := hθ
  have hmin : (Seesaw.init x y width height).limit.minAngle = radians (-35) := rfl
  have hmax : (Seesaw.init x y width height).limit.maxAngle = radians 35 := rfl
  rw [hmin] at h1
  rw [hmax] at h2
  have hneg : radians (-35) = -(radians 35) := by unfold radians; ring
  rw [abs_le]
  constructor
  · rw [hneg] at h1
    linarith
  · exact h2

/-- Witness for C5: the zero angle is within the limit joint of the seesaw
at (300, 200) with box 10 by 150. -/
theorem C5_seesaw_witness : |(0 : ℝ)| ≤ radians 35 := by
  have h := (C5_seesaw 300 200 10 150).2.2.2.2.2.2
  refine h 0 ⟨?_, ?_⟩
  · show (Seesaw.init 300 200 10 150).limit.minAngle ≤ 0
    have hmin : (Seesaw.init (300 : ℚ) 200 10 150).limit.minAngle = radians (-35) := rfl
    rw [hmin]
    unfold radians
    linarith [Real.pi_pos]
  · show (0 : ℝ) ≤ (Seesaw.init 300 200 10 150).limit.maxAngle
    have hmax : (Seesaw.init (300 : ℚ) 200 10 150).limit.maxAngle = radians 35 := rfl
    rw [hmax]
    unfold radians
    linarith [Real.pi_pos]

/-- Claim C6: holder 4's local x-offset is the literal
`-length * 0.4 + 355`, independent of the load and effort arguments, and
holder 4 carries the lever collision type 2 just like the main beam. -/
theorem C6_holder4 (piv : Vec2) (length thickness mass : ℚ) (load effort : Crate) :
    (Lever.init piv length thickness load effort mass).holder4.a.x
        = -length * 0.4 + 355
      ∧ (Lever.init piv length thickness load effort mass).holder4.b.x
        = -length * 0.4 + 355
      ∧ (Lever.init piv length thickness load effort mass).holder4.collision_type
        = LEVER_COLLISION_TYPE
      ∧ (Lever.init piv length thickness load effort mass).shape.collision_type
        = LEVER_COLLISION_TYPE
      ∧ LEVER_COLLISION_TYPE = 2 :=
  ⟨rfl, rfl, rfl, rfl, rfl⟩

/-- Claim C7: Catapult construction places the one dynamic body at the
pivot with the launch spin `angular_velocity = 46` (non-zero) baked in,
attaches the arm and the two stopper segments, and joins the body to the
static frame with a pivot joint anchored at the pivot. -/
theorem C7_catapult (pivot : Vec2) (stick_length stick_thickness : ℚ) :
    (Catapult.init pivot stick_length stick_thickness).arm_body_position = pivot
      ∧ (Catapult.init pivot stick_length stick_thickness).arm_body_angular_velocity = 46
      ∧ (Catapult.init pivot stick_length stick_thickness).arm_body_angular_velocity ≠ 0
      ∧ (Catapult.init pivot stick_length stick_thickness).arm_shape
        = ⟨⟨0, 0⟩, ⟨-stick_length, 0⟩, stick_thickness, 4/5, 0, 0⟩
      ∧ (Catapult.init pivot stick_length stick_thickness).stopper_shape
        = ⟨⟨-stick_length, 0⟩, ⟨-stick_length - 15, -25⟩, stick_thickness, 1/2, 1/5, 0⟩
      ∧ (Catapult.init pivot stick_length stick_thickness).stopper_shape2
        = ⟨⟨-stick_length + 20, 0⟩, ⟨-stick_length + 35, -25⟩, stick_thickness, 1/2, 1/5, 0⟩
      ∧ (Catapult.init pivot stick_length stick_thickness).joint = ⟨pivot, true⟩ := by
  refine ⟨rfl, rfl, by norm_num [Catapult.init], rfl, rfl, rfl, rfl⟩

/-- Claim C8: collision-type tags at construction: 1 on the Ball's shape,
2 on the Lever's main beam and holder 4 (holders 1-3 keep the default 0, as
do the Crate and Projectile shapes), 99 on the Trigger's sensor shape; and
Trigger construction registers the begin-of-contact handler exactly for the
pair (1, 99). -/
theorem C8_collision_types (x y radius : ℚ) (piv : Vec2) (L T m : ℚ)
    (load effort : Crate) (cpos ppos : Vec2) (cmass pradius : ℚ)
    (s : Space) (bodyId shapeId : ℕ) (tpos : Vec2) (w h : ℚ)
    (cb : Option CbResult) :
    (Ball.init x y radius).shape.collision_type = 1
      ∧ (Lever.init piv L T load effort m).shape.collision_type = 2
      ∧ (Lever.init piv L T load effort m).holder4.collision_type = 2
      ∧ (Lever.init piv L T load effort m).holder1.collision_type = 0
      ∧ (Lever.init piv L T load effort m).holder2.collision_type = 0
      ∧ (Lever.init piv L T load effort m).holder3.collision_type = 0
      ∧ (Crate.init cpos cmass).shape.collision_type = 0
      ∧ (Projectile.init ppos pradius).shape.collision_type = 0
      ∧ (Trigger.init s bodyId shapeId tpos w h cb).1.shape.collision_type = 99
      ∧ (Trigger.init s bodyId shapeId tpos w h cb).1.shape.sensor = true
      ∧ (Trigger.init s bodyId shapeId tpos w h cb).2.handlers
        = s.handlers ++ [(1, 99)] :=
  ⟨rfl, rfl, rfl, rfl, rfl, rfl, rfl, rfl, rfl, rfl, rfl⟩

/-- Claim C9: `draw` on a Ball or Projectile emits the once-prerendered
texture rotated by `-(degrees θ)` for physics angle θ, blitted centered at
the body's current (integer-truncated) position; the texture in the blit is
the construction-time texture, identical across draw calls. -/
theorem C9_draw_rotation (x y radius : ℚ) (ppos : Vec2) (pradius : ℚ)
    (st st2 : BodyState) :
    Ball.draw (Ball.init x y radius) st
        = ⟨(Ball.init x y radius).image, -(degrees st.angle),
           (pyInt st.position.x, pyInt st.position.y)⟩
      ∧ (Ball.draw (Ball.init x y radius) st).image
        = (Ball.draw (Ball.init x y radius) st2).image
      ∧ (Ball.init x y radius).image = ⟨radius * 2, radius * 2⟩
      ∧ Projectile.draw (Projectile.init ppos pradius) st
        = ⟨(Projectile.init ppos pradius).image, -(degrees st.angle),
           (pyInt st.position.x, pyInt st.position.y)⟩
      ∧ (Projectile.draw (Projectile.init ppos pradius) st).image
        = (Projectile.draw (Projectile.init ppos pradius) st2).image
      ∧ (Projectile.init ppos pradius).image = ⟨pradius * 2, pradius * 2⟩ :=
  ⟨rfl, rfl, rfl, rfl, rfl, rfl⟩

/-- Claim C10: the Trigger's static sensor body is placed at
`(position.x + width / 2, position.y + height / 2)`: the position argument
is the top-left corner of the sensor box, not its center. -/
theorem C10_trigger_topleft (s : Space) (bodyId shapeId : ℕ) (position : Vec2)
    (width height : ℚ) (cb : Option CbResult) :
    (Trigger.init s bodyId shapeId position width height cb).1.bodyPosition
      = ⟨position.x + width / 2, position.y + height / 2⟩ :=
  rfl

end PygameWrapper
